import Mathlib

/-!
Shallow embedding of the TravelEase server (src/server.js and
src/unnamed/part_000): an Express + MongoDB CRUD backend over two
collections, `vehicles` and `bookings`.  Request handlers are embedded as
pure functions from (request data, collection state, database outcome) to
(response, new collection state, whether a persistence call was made).
-/

namespace TravelEase

/-- A JavaScript `Date` object: either a valid instant (milliseconds since
the epoch) or the `Invalid Date` value produced when parsing fails. -/
inductive JDate where
  | valid (ms : Int)
  | invalid
deriving DecidableEq, Repr

/-- A JSON/BSON value as it appears in request bodies and stored documents. -/
inductive Value where
  | vStr (s : String)
  | vNum (n : Int)
  | vBool (b : Bool)
  | vNull
  | vDate (d : JDate)
deriving DecidableEq, Repr

/-- JavaScript truthiness of a value: `""`, `0`, `false` and `null` are
falsy; everything else is truthy (an Invalid Date object is truthy). -/
def truthy : Value → Bool
  | .vStr s => s ≠ ""
  | .vNum n => n ≠ 0
  | .vBool b => b
  | .vNull => false
  | .vDate _ => true

/-- Truthiness of a possibly-absent field (`undefined` is falsy). -/
def truthyOpt : Option Value → Bool
  | none => false
  | some v => truthy v

/-- Is a value a JS `Date` object? -/
def Value.isDate : Value → Bool
  | .vDate _ => true
  | _ => false

/-- Model of `ObjectId.isValid` from the MongoDB driver: a string is a valid
ObjectId if it is 24 hexadecimal characters (or a 12-character buffer-like
string). -/
def isValidObjectId (s : String) : Bool :=
  (s.length == 24 && s.toList.all (fun c => c.isDigit || ('a' ≤ c && c ≤ 'f') || ('A' ≤ c && c ≤ 'F')))
    || s.length == 12

/-- Days since the Unix epoch for a civil date (proleptic Gregorian). -/
def daysFromCivil (y m d : Int) : Int :=
  let y' := if m ≤ 2 then y - 1 else y
  let era := (if y' ≥ 0 then y' else y' - 399) / 400
  let yoe := y' - era * 400
  let mp := (m + 9) % 12
  let doy := (153 * mp + 2) / 5 + d - 1
  let doe := yoe * 365 + yoe / 4 - yoe / 100 + doy
  era * 146097 + doe - 719468

/-- Number of days in a month of the Gregorian calendar. -/
def daysInMonth (y m : Int) : Int :=
  if m = 2 then
    (if y % 4 = 0 && (y % 100 ≠ 0 || y % 400 = 0) then 29 else 28)
  else if m = 4 || m = 6 || m = 9 || m = 11 then 30
  else 31

/-- Parse a date-only ISO string `YYYY-MM-DD` to milliseconds since the
epoch; `none` when the string is not of that shape or the components are
out of range.  This models the fragment of ECMAScript date-string parsing
exercised by this server (date-only ISO forms); all other strings are
treated as unparsable. -/
def parseIsoDate (s : String) : Option Int :=
  let cs := s.toList
  if s.length == 10 then
    match cs with
    | [y1, y2, y3, y4, h1, m1, m2, h2, d1, d2] =>
      if y1.isDigit && y2.isDigit && y3.isDigit && y4.isDigit &&
         h1 = '-' && m1.isDigit && m2.isDigit && h2 = '-' && d1.isDigit && d2.isDigit then
        let y : Int := (y1.toNat - 48) * 1000 + (y2.toNat - 48) * 100 + (y3.toNat - 48) * 10 + (y4.toNat - 48)
        let m : Int := (m1.toNat - 48) * 10 + (m2.toNat - 48)
        let d : Int := (d1.toNat - 48) * 10 + (d2.toNat - 48)
        if 1 ≤ m && m ≤ 12 && 1 ≤ d && d ≤ daysInMonth y m then
          some (daysFromCivil y m d * 86400000)
        else none
      else none
    | _ => none
  else none

/-- The JavaScript `new Date(v)` constructor.  Crucially it is TOTAL: for
any argument it returns a `Date` object — an unparsable string yields the
`Invalid Date` value, it never throws.  A number is taken as milliseconds
since the epoch; a `Date` is copied. -/
def jsNewDate (v : Value) : JDate :=
  match v with
  | .vNum n => .valid n
  | .vStr s =>
    match parseIsoDate s with
    | some ms => .valid ms
    | none => .invalid
  | .vDate d => d
  | _ => .invalid

/-! ### Documents and request bodies -/

/-- A stored vehicle document.  The named fields are the schema fields the
handlers read or write; `extra` carries any further fields of the
schema-flexible document (MongoDB documents are open maps). -/
structure VehicleDoc where
  oid : String
  vehicleName : Option Value
  owner : Option Value
  category : Option Value
  pricePerDay : Option Value
  location : Option Value
  availability : Option Value
  description : Option Value
  coverImage : Option Value
  userEmail : Option Value
  createdAt : Int
  extra : List (String × Value)
deriving DecidableEq, Repr

/-- A `POST /vehicles` or `PUT /vehicles/:id` request body.  A field is
`none` when absent from the JSON body (JS `undefined`). -/
structure VehicleBody where
  vehicleName : Option Value
  owner : Option Value
  category : Option Value
  pricePerDay : Option Value
  location : Option Value
  availability : Option Value
  description : Option Value
  coverImage : Option Value
  userEmail : Option Value
  extra : List (String × Value)
deriving DecidableEq, Repr

/-- A stored booking document. -/
structure BookingDoc where
  oid : String
  vehicleId : Value
  userEmail : Value
  startDate : Value
  endDate : Value
  status : Value
  createdAt : Int
  extra : List (String × Value)
deriving DecidableEq, Repr

/-- A `POST /bookings` request body. -/
structure BookingBody where
  vehicleId : Option Value
  userEmail : Option Value
  startDate : Option Value
  endDate : Option Value
  status : Option Value
  extra : List (String × Value)
deriving DecidableEq, Repr

/-! ### Responses

Every error response in the source is literally
`res.status(s).json({ success: false, error: "..." })`, so an error is
embedded as its status code together with its `error` string; the
`{success: false, error: _}` body shape is uniform by construction.
Success payloads differ per endpoint. -/

/-- The JSON body of a successful response. -/
inductive OkBody where
  | vdocs (ds : List VehicleDoc)
  | vdoc (d : VehicleDoc)
  | bdocs (bs : List BookingDoc)
  | inserted (message : String) (insertedId : String)
  | updated (message : String) (modifiedCount : Nat)
  | deleted (message : String)
  | booked (message : String) (bookingId : String)
deriving DecidableEq, Repr

/-- An HTTP response: success (status 200, JSON payload) or an error
status with body `{success: false, error: msg}`. -/
inductive Resp where
  | ok (b : OkBody)
  | err (status : Nat) (error : String)
deriving DecidableEq, Repr

/-- Outcome of the single persistence call a handler makes: the call
returns normally, or the driver throws an exception carrying internal
detail (connection loss, malformed query, ...). -/
inductive DbOutcome where
  | ok
  | exn (detail : String)
deriving DecidableEq, Repr

/-- Result of a vehicle-collection handler: the response, the collection
state afterwards, and whether a persistence call was issued. -/
structure VOut where
  resp : Resp
  store : List VehicleDoc
  dbCalled : Bool
deriving DecidableEq, Repr

/-- Result of a booking-collection handler. -/
structure BOut where
  resp : Resp
  store : List BookingDoc
  dbCalled : Bool
deriving DecidableEq, Repr

/-! ### Persistence-collection operations -/

/-- Model of `find().sort({createdAt: -1})`: all documents ordered by `createdAt`
descending. -/
def sortVehiclesDesc (l : List VehicleDoc) : List VehicleDoc :=
  l.mergeSort (fun a b => b.createdAt ≤ a.createdAt)

/-- Model of `find({userEmail: email})`: documents whose `userEmail` equals the
given string. -/
def findVehiclesByEmail (email : String) (l : List VehicleDoc) : List VehicleDoc :=
  l.filter (fun d => decide (d.userEmail = some (Value.vStr email)))

/-- Model of `findOne({_id})`: the first document with the given identifier. -/
def findVehicleById (id : String) (l : List VehicleDoc) : Option VehicleDoc :=
  l.find? (fun d => d.oid == id)

/-- Model of `updateOne({_id}, {$set: ...})`: apply `f` to the first document with
the given identifier; returns `(matchedCount, modifiedCount)` and the new
collection state. -/
def updateVehicleById (id : String) (f : VehicleDoc → VehicleDoc) :
    List VehicleDoc → (Nat × Nat) × List VehicleDoc
  | [] => ((0, 0), [])
  | d :: ds =>
    if d.oid = id then
      ((1, if f d = d then 0 else 1), f d :: ds)
    else
      let r := updateVehicleById id f ds
      (r.1, d :: r.2)

/-- Model of `deleteOne({_id})`: remove the first document with the given
identifier; returns the `deletedCount` and the new collection state. -/
def deleteVehicleById (id : String) : List VehicleDoc → Nat × List VehicleDoc
  | [] => (0, [])
  | d :: ds =>
    if d.oid = id then (1, ds)
    else
      let r := deleteVehicleById id ds
      (r.1, d :: r.2)

/-- Model of `deleteOne({_id})` on the bookings collection. -/
def deleteBookingById (id : String) : List BookingDoc → Nat × List BookingDoc
  | [] => (0, [])
  | b :: bs =>
    if b.oid = id then (1, bs)
    else
      let r := deleteBookingById id bs
      (r.1, b :: r.2)

/-- Model of `find({userEmail: email}).sort({createdAt: -1})` on bookings. -/
def sortBookingsDesc (l : List BookingDoc) : List BookingDoc :=
  l.mergeSort (fun a b => b.createdAt ≤ a.createdAt)

/-- Bookings of one user. -/
def findBookingsByEmail (email : String) (l : List BookingDoc) : List BookingDoc :=
  l.filter (fun b => decide (b.userEmail = Value.vStr email))

/-! ### Vehicle resource handlers

Each handler takes the request data, the current collection state and the
outcome of its (single) persistence call, and returns the response, the
new collection state and whether the persistence call was reached.  Both
source files (`src/server.js` and `src/unnamed/part_000`) contain
identical vehicle handlers, so one embedding covers both. -/

/-- Handler for `GET /vehicles`: all vehicles sorted by `createdAt` descending. -/
def getVehicles (store : List VehicleDoc) (db : DbOutcome) : VOut :=
  match db with
  | .exn _ => ⟨.err 500 "Failed to fetch Vehicles", store, true⟩
  | .ok => ⟨.ok (.vdocs (sortVehiclesDesc store)), store, true⟩

/-- Handler for `POST /vehicles`: requires truthy `vehicleName` and `userEmail`,
stamps `createdAt` with the current time, inserts, returns the generated
identifier. -/
def postVehicle (now : Int) (newId : String) (body : VehicleBody)
    (store : List VehicleDoc) (db : DbOutcome) : VOut :=
  if !(truthyOpt body.vehicleName) || !(truthyOpt body.userEmail) then
    ⟨.err 400 "vehicleName and userEmail are required", store, false⟩
  else
    match db with
    | .exn _ => ⟨.err 500 "Failed to add vehicle", store, true⟩
    | .ok =>
      let doc : VehicleDoc := {
        oid := newId
        vehicleName := body.vehicleName
        owner := body.owner
        category := body.category
        pricePerDay := body.pricePerDay
        location := body.location
        availability := body.availability
        description := body.description
        coverImage := body.coverImage
        userEmail := body.userEmail
        createdAt := now
        extra := body.extra }
      ⟨.ok (.inserted "Vehicle added successfully" newId), store ++ [doc], true⟩

/-- Handler for `GET /vehicles/:id`: malformed identifier → 400 before any
persistence call; absent → 404; otherwise the full document. -/
def getVehicleById (id : String) (store : List VehicleDoc) (db : DbOutcome) : VOut :=
  if !isValidObjectId id then
    ⟨.err 400 "Invalid vehicle id", store, false⟩
  else
    match db with
    | .exn _ => ⟨.err 500 "Failed to fetch vehicle", store, true⟩
    | .ok =>
      match findVehicleById id store with
      | none => ⟨.err 404 "Vehicle not found", store, true⟩
      | some d => ⟨.ok (.vdoc d), store, true⟩

/-- Handler for `GET /my-vehicles?email=...`: requires a truthy email query parameter
(`none` models an absent parameter); returns that owner's vehicles sorted
by `createdAt` descending. -/
def getMyVehicles (email : Option String) (store : List VehicleDoc) (db : DbOutcome) : VOut :=
  match email with
  | none => ⟨.err 400 "Email query parameter is required", store, false⟩
  | some e =>
    if e = "" then ⟨.err 400 "Email query parameter is required", store, false⟩
    else
      match db with
      | .exn _ => ⟨.err 500 "Failed to fetch user vehicles", store, true⟩
      | .ok => ⟨.ok (.vdocs (sortVehiclesDesc (findVehiclesByEmail e store))), store, true⟩

/-- The `$set` document of `PUT /vehicles/:id`: exactly the eight
allow-listed fields are written with the request-body values.  The driver
(`ignoreUndefined: false`, its default) serializes an absent (`undefined`)
body field as `null`, so each of the eight fields is always set — to
`null` when omitted from the body.  `userEmail`, `createdAt`, the
identifier and all other fields are not part of the `$set` and are left
unchanged. -/
def applyVehicleSet (body : VehicleBody) (d : VehicleDoc) : VehicleDoc :=
  { d with
    vehicleName := some (body.vehicleName.getD .vNull)
    owner := some (body.owner.getD .vNull)
    category := some (body.category.getD .vNull)
    pricePerDay := some (body.pricePerDay.getD .vNull)
    location := some (body.location.getD .vNull)
    availability := some (body.availability.getD .vNull)
    description := some (body.description.getD .vNull)
    coverImage := some (body.coverImage.getD .vNull) }

/-- Handler for `PUT /vehicles/:id`: malformed identifier → 400 before any
persistence call; `matchedCount` zero → 404; otherwise reports the
`modifiedCount`. -/
def putVehicle (id : String) (body : VehicleBody)
    (store : List VehicleDoc) (db : DbOutcome) : VOut :=
  if !isValidObjectId id then
    ⟨.err 400 "Invalid vehicle id", store, false⟩
  else
    match db with
    | .exn _ => ⟨.err 500 "Failed to update vehicle", store, true⟩
    | .ok =>
      let r := updateVehicleById id (applyVehicleSet body) store
      if r.1.1 = 0 then ⟨.err 404 "Vehicle not found", store, true⟩
      else ⟨.ok (.updated "Vehicle updated successfully" r.1.2), r.2, true⟩

/-- Handler for `DELETE /vehicles/:id`: malformed identifier → 400 before any
persistence call; `deletedCount` zero → 404; otherwise success. -/
def deleteVehicle (id : String) (store : List VehicleDoc) (db : DbOutcome) : VOut :=
  if !isValidObjectId id then
    ⟨.err 400 "Invalid vehicle id", store, false⟩
  else
    match db with
    | .exn _ => ⟨.err 500 "Failed to delete vehicle", store, true⟩
    | .ok =>
      let r := deleteVehicleById id store
      if r.1 = 0 then ⟨.err 404 "Vehicle not found", store, true⟩
      else ⟨.ok (.deleted "Vehicle deleted successfully"), r.2, true⟩

/-! ### Booking resource handlers -/

/-- JS `bookingData.status || "pending"`: a falsy (absent, empty, zero,
false or null) status defaults to `"pending"`. -/
def defaultStatus (s : Option Value) : Value :=
  match s with
  | some v => if truthy v then v else .vStr "pending"
  | none => .vStr "pending"

/-- Handler for `POST /bookings` as written in `src/server.js`: field-presence check,
status default, `createdAt` stamp, insert.  `startDate`/`endDate` are
stored exactly as they arrived in the request body (this copy performs no
date conversion). -/
def postBookingServer (now : Int) (newId : String) (body : BookingBody)
    (store : List BookingDoc) (db : DbOutcome) : BOut :=
  if !(truthyOpt body.vehicleId) || !(truthyOpt body.userEmail)
      || !(truthyOpt body.startDate) || !(truthyOpt body.endDate) then
    ⟨.err 400 "vehicleId, userEmail, startDate and endDate are required", store, false⟩
  else
    match db with
    | .exn _ => ⟨.err 500 "Failed to create booking", store, true⟩
    | .ok =>
      let doc : BookingDoc := {
        oid := newId
        vehicleId := body.vehicleId.getD .vNull
        userEmail := body.userEmail.getD .vNull
        startDate := body.startDate.getD .vNull
        endDate := body.endDate.getD .vNull
        status := defaultStatus body.status
        createdAt := now
        extra := body.extra }
      ⟨.ok (.booked "Booking created successfully" newId), store ++ [doc], true⟩

/-- Handler for `POST /bookings` as written in `src/unnamed/part_000`.  After the
field-presence check it runs
`try { bookingData.startDate = new Date(...); bookingData.endDate = new Date(...) } catch { ...400 "Invalid date format"... }`;
since the JS `Date` constructor never throws (an unparsable string yields
the `Invalid Date` object, see `jsNewDate`), the `catch` branch returning
400 is unreachable and has no counterpart here: the dates are always
replaced by `Date` objects (possibly invalid ones) and the insert
proceeds. -/
def postBookingPart (now : Int) (newId : String) (body : BookingBody)
    (store : List BookingDoc) (db : DbOutcome) : BOut :=
  if !(truthyOpt body.vehicleId) || !(truthyOpt body.userEmail)
      || !(truthyOpt body.startDate) || !(truthyOpt body.endDate) then
    ⟨.err 400 "vehicleId, userEmail, startDate and endDate are required", store, false⟩
  else
    match db with
    | .exn _ => ⟨.err 500 "Failed to create booking", store, true⟩
    | .ok =>
      let doc : BookingDoc := {
        oid := newId
        vehicleId := body.vehicleId.getD .vNull
        userEmail := body.userEmail.getD .vNull
        startDate := .vDate (jsNewDate (body.startDate.getD .vNull))
        endDate := .vDate (jsNewDate (body.endDate.getD .vNull))
        status := defaultStatus body.status
        createdAt := now
        extra := body.extra }
      ⟨.ok (.booked "Booking created successfully" newId), store ++ [doc], true⟩

/-- Handler for `GET /my-bookings?email=...`: requires a truthy email query
parameter; returns that user's bookings sorted by `createdAt`
descending. -/
def getMyBookings (email : Option String) (store : List BookingDoc) (db : DbOutcome) : BOut :=
  match email with
  | none => ⟨.err 400 "Email query parameter is required", store, false⟩
  | some e =>
    if e = "" then ⟨.err 400 "Email query parameter is required", store, false⟩
    else
      match db with
      | .exn _ => ⟨.err 500 "Failed to fetch user bookings", store, true⟩
      | .ok => ⟨.ok (.bdocs (sortBookingsDesc (findBookingsByEmail e store))), store, true⟩

/-- Handler for `DELETE /bookings/:id`: malformed identifier → 400 before any
persistence call; `deletedCount` zero → 404; otherwise success. -/
def deleteBooking (id : String) (store : List BookingDoc) (db : DbOutcome) : BOut :=
  if !isValidObjectId id then
    ⟨.err 400 "Invalid booking id", store, false⟩
  else
    match db with
    | .exn _ => ⟨.err 500 "Failed to delete booking", store, true⟩
    | .ok =>
      let r := deleteBookingById id store
      if r.1 = 0 then ⟨.err 404 "Booking not found", store, true⟩
      else ⟨.ok (.deleted "Booking deleted successfully"), r.2, true⟩

/-! ### Sample data used by witnesses and counterexamples -/

/-- A well-formed 24-hex-character ObjectId string. -/
def sampleOid : String := "0123456789abcdef01234567"

/-- A second well-formed ObjectId string. -/
def sampleOid2 : String := "abcdefabcdefabcdefabcdef"

/-- A concrete stored vehicle owned by `a@x.com`. -/
def sampleVehicle : VehicleDoc :=
  { oid := sampleOid
    vehicleName := some (.vStr "Car")
    owner := some (.vStr "Alice")
    category := some (.vStr "suv")
    pricePerDay := some (.vNum 50)
    location := some (.vStr "Dhaka")
    availability := some (.vBool true)
    description := some (.vStr "nice")
    coverImage := some (.vStr "img.png")
    userEmail := some (.vStr "a@x.com")
    createdAt := 100
    extra := [] }

/-- A concrete update body that tries to change `userEmail` to
`b@x.com` and omits `description` and `coverImage`. -/
def sampleUpdateBody : VehicleBody :=
  { vehicleName := some (.vStr "NewCar")
    owner := some (.vStr "Bob")
    category := some (.vStr "sedan")
    pricePerDay := some (.vNum 70)
    location := some (.vStr "Ctg")
    availability := some (.vBool false)
    description := none
    coverImage := none
    userEmail := some (.vStr "b@x.com")
    extra := [] }

/-- A concrete valid vehicle-creation body. -/
def sampleCreateBody : VehicleBody :=
  { vehicleName := some (.vStr "Bike")
    owner := none
    category := none
    pricePerDay := none
    location := none
    availability := none
    description := none
    coverImage := none
    userEmail := some (.vStr "c@x.com")
    extra := [] }

/-- A concrete valid booking body with parseable ISO dates and no status. -/
def sampleBookingBody : BookingBody :=
  { vehicleId := some (.vStr "abc123")
    userEmail := some (.vStr "a@x.com")
    startDate := some (.vStr "2024-01-01")
    endDate := some (.vStr "2024-01-05")
    status := none
    extra := [] }

/-- A concrete booking body whose dates are unparsable strings. -/
def sampleBadDateBody : BookingBody :=
  { vehicleId := some (.vStr "abc123")
    userEmail := some (.vStr "a@x.com")
    startDate := some (.vStr "not-a-date")
    endDate := some (.vStr "also-bad")
    status := none
    extra := [] }

/-! ### Helper lemmas about the collection operations -/

theorem updateVehicleById_append (id : String) (f : VehicleDoc → VehicleDoc)
    (pre : List VehicleDoc) (old : VehicleDoc) (post : List VehicleDoc)
    (hpre : ∀ d ∈ pre, d.oid ≠ id) (hold : old.oid = id) :
    updateVehicleById id f (pre ++ old :: post) =
      ((1, if f old = old then 0 else 1), pre ++ f old :: post) := by
  induction pre with
  | nil => simp [updateVehicleById, hold]
  | cons d ds ih =>
    have hd : d.oid ≠ id := hpre d (by simp)
    have ih' := ih (fun x hx => hpre x (by simp [hx]))
    simp [updateVehicleById, hd, ih']

theorem updateVehicleById_not_found (id : String) (f : VehicleDoc → VehicleDoc)
    (store : List VehicleDoc) (h : ∀ d ∈ store, d.oid ≠ id) :
    updateVehicleById id f store = ((0, 0), store) := by
  induction store with
  | nil => simp [updateVehicleById]
  | cons d ds ih =>
    have hd : d.oid ≠ id := h d (by simp)
    have ih' := ih (fun x hx => h x (by simp [hx]))
    simp [updateVehicleById, hd, ih']

theorem deleteVehicleById_not_found (id : String)
    (store : List VehicleDoc) (h : ∀ d ∈ store, d.oid ≠ id) :
    deleteVehicleById id store = (0, store) := by
  induction store with
  | nil => simp [deleteVehicleById]
  | cons d ds ih =>
    have hd : d.oid ≠ id := h d (by simp)
    have ih' := ih (fun x hx => h x (by simp [hx]))
    simp [deleteVehicleById, hd, ih']

theorem deleteBookingById_not_found (id : String)
    (store : List BookingDoc) (h : ∀ b ∈ store, b.oid ≠ id) :
    deleteBookingById id store = (0, store) := by
  induction store with
  | nil => simp [deleteBookingById]
  | cons b bs ih =>
    have hb : b.oid ≠ id := h b (by simp)
    have ih' := ih (fun x hx => h x (by simp [hx]))
    simp [deleteBookingById, hb, ih']

theorem findVehicleById_not_found (id : String)
    (store : List VehicleDoc) (h : ∀ d ∈ store, d.oid ≠ id) :
    findVehicleById id store = none := by
  simp only [findVehicleById, List.find?_eq_none]
  intro d hd
  simpa using h d hd

theorem sortVehiclesDesc_perm (l : List VehicleDoc) :
    (sortVehiclesDesc l).Perm l :=
  List.mergeSort_perm l _

theorem sortVehiclesDesc_sorted (l : List VehicleDoc) :
    (sortVehiclesDesc l).Pairwise (fun a b => b.createdAt ≤ a.createdAt) := by
  have h := @List.sorted_mergeSort VehicleDoc
    (fun a b => decide (b.createdAt ≤ a.createdAt))
    (fun a b c hab hbc => by
      simp only [decide_eq_true_eq] at *
      omega)
    (fun a b => by
      simp only [Bool.or_eq_true, decide_eq_true_eq]
      omega) l
  exact h.imp (fun hab => by simpa using hab)

/-! ### Claim theorems -/

/-- C1: the spec claims a booking request whose `startDate`/`endDate` fail
to parse yields a 400 "Invalid date format for startDate or endDate" and
inserts nothing.  The code's `catch` branch carrying exactly that message
is unreachable, because the JS `Date` constructor never throws: evaluating
the `src/unnamed/part_000` handler on a request with unparsable date
strings returns SUCCESS and inserts a booking whose dates are the
`Invalid Date` value. -/
theorem c1_dead_date_catch :
    (postBookingPart 1700000000000 sampleOid sampleBadDateBody [] .ok).resp =
        .ok (.booked "Booking created successfully" sampleOid) ∧
    (postBookingPart 1700000000000 sampleOid sampleBadDateBody [] .ok).store =
        [{ oid := sampleOid
           vehicleId := .vStr "abc123"
           userEmail := .vStr "a@x.com"
           startDate := .vDate .invalid
           endDate := .vDate .invalid
           status := .vStr "pending"
           createdAt := 1700000000000
           extra := [] }] := by
  exact ⟨rfl, rfl⟩

/-- C2 (counterexample): the claim says every field other than the
identifier and `createdAt` — in particular `userEmail` — is replaceable
via `PUT /vehicles/:id`.  On a concrete request whose body sets
`userEmail` to `b@x.com`, the stored document keeps `a@x.com`: the
handler's `$set` allow-list omits `userEmail`. -/
theorem c2_userEmail_not_replaced :
    sampleUpdateBody.userEmail = some (.vStr "b@x.com") ∧
    (putVehicle sampleOid sampleUpdateBody [sampleVehicle] .ok).store.map
        (fun d => d.userEmail) = [some (.vStr "a@x.com")] ∧
    (putVehicle sampleOid sampleUpdateBody [sampleVehicle] .ok).store.map
        (fun d => d.userEmail) ≠ [some (.vStr "b@x.com")] := by
  refine ⟨rfl, rfl, ?_⟩
  decide

/-- C2 (amended): for every `PUT /vehicles/:id` with a valid identifier
matching a stored vehicle, exactly the eight allow-listed fields are
replaced by the request-body values, while the identifier, `createdAt`,
`userEmail` and every other stored field are never changed by the
update. -/
theorem c2_update_frame (id : String) (body : VehicleBody)
    (pre : List VehicleDoc) (old : VehicleDoc) (post : List VehicleDoc)
    (hid : isValidObjectId id = true)
    (hpre : ∀ d ∈ pre, d.oid ≠ id) (hold : old.oid = id) :
    (putVehicle id body (pre ++ old :: post) .ok).store =
        pre ++ applyVehicleSet body old :: post ∧
    (applyVehicleSet body old).oid = old.oid ∧
    (applyVehicleSet body old).createdAt = old.createdAt ∧
    (applyVehicleSet body old).userEmail = old.userEmail ∧
    (applyVehicleSet body old).extra = old.extra ∧
    (applyVehicleSet body old).vehicleName = some (body.vehicleName.getD .vNull) ∧
    (applyVehicleSet body old).owner = some (body.owner.getD .vNull) ∧
    (applyVehicleSet body old).category = some (body.category.getD .vNull) ∧
    (applyVehicleSet body old).pricePerDay = some (body.pricePerDay.getD .vNull) ∧
    (applyVehicleSet body old).location = some (body.location.getD .vNull) ∧
    (applyVehicleSet body old).availability = some (body.availability.getD .vNull) ∧
    (applyVehicleSet body old).description = some (body.description.getD .vNull) ∧
    (applyVehicleSet body old).coverImage = some (body.coverImage.getD .vNull) := by
  have hupd := updateVehicleById_append id (applyVehicleSet body) pre old post hpre hold
  refine ⟨?_, rfl, rfl, rfl, rfl, rfl, rfl, rfl, rfl, rfl, rfl, rfl, rfl⟩
  simp [putVehicle, hid, hupd]

/-- Witness for `c2_update_frame` at a concrete vehicle and update body. -/
theorem c2_update_frame_witness :
    isValidObjectId sampleOid = true ∧
    (putVehicle sampleOid sampleUpdateBody [sampleVehicle] .ok).store =
        [applyVehicleSet sampleUpdateBody sampleVehicle] ∧
    (applyVehicleSet sampleUpdateBody sampleVehicle).userEmail = sampleVehicle.userEmail := by
  have h := c2_update_frame sampleOid sampleUpdateBody [] sampleVehicle []
      (by decide) (by intro d hd; cases hd) rfl
  exact ⟨by decide, by simpa using h.1, h.2.2.2.1⟩

/-- C3: for every `PUT /vehicles/:id` with a valid identifier, (a) when a
stored vehicle matches, the handler overwrites exactly the eight
allow-listed fields with the request-body values (an omitted field is
stored as null, not retained) and reports the modified-count; (b) when no
stored vehicle matches, it returns the 404 not-found error. -/
theorem c3_put_overwrite_semantics (id : String) (body : VehicleBody)
    (hid : isValidObjectId id = true) :
    (∀ pre old post, (∀ d ∈ pre, d.oid ≠ id) → old.oid = id →
      putVehicle id body (pre ++ old :: post) .ok =
        ⟨.ok (.updated "Vehicle updated successfully"
              (if applyVehicleSet body old = old then 0 else 1)),
         pre ++ applyVehicleSet body old :: post, true⟩ ∧
      (applyVehicleSet body old).vehicleName = some (body.vehicleName.getD .vNull) ∧
      (applyVehicleSet body old).owner = some (body.owner.getD .vNull) ∧
      (applyVehicleSet body old).category = some (body.category.getD .vNull) ∧
      (applyVehicleSet body old).pricePerDay = some (body.pricePerDay.getD .vNull) ∧
      (applyVehicleSet body old).location = some (body.location.getD .vNull) ∧
      (applyVehicleSet body old).availability = some (body.availability.getD .vNull) ∧
      (applyVehicleSet body old).description = some (body.description.getD .vNull) ∧
      (applyVehicleSet body old).coverImage = some (body.coverImage.getD .vNull) ∧
      (body.description = none → (applyVehicleSet body old).description = some .vNull)) ∧
    (∀ store, (∀ d ∈ store, d.oid ≠ id) →
      putVehicle id body store .ok = ⟨.err 404 "Vehicle not found", store, true⟩) := by
  constructor
  · intro pre old post hpre hold
    have hupd := updateVehicleById_append id (applyVehicleSet body) pre old post hpre hold
    refine ⟨?_, rfl, rfl, rfl, rfl, rfl, rfl, rfl, rfl, ?_⟩
    · simp [putVehicle, hid, hupd]
    · intro hnone
      simp [applyVehicleSet, hnone]
  · intro store hstore
    have hupd := updateVehicleById_not_found id (applyVehicleSet body) store hstore
    simp [putVehicle, hid, hupd]

/-- Witness for `c3_put_overwrite_semantics`: a matched update overwrites
the fields and an unmatched identifier yields the 404 error. -/
theorem c3_put_overwrite_witness :
    isValidObjectId sampleOid = true ∧
    putVehicle sampleOid sampleUpdateBody [sampleVehicle] .ok =
      ⟨.ok (.updated "Vehicle updated successfully" 1),
       [applyVehicleSet sampleUpdateBody sampleVehicle], true⟩ ∧
    (applyVehicleSet sampleUpdateBody sampleVehicle).description = some .vNull ∧
    putVehicle sampleOid sampleUpdateBody [] .ok =
      ⟨.err 404 "Vehicle not found", [], true⟩ := by
  have h := c3_put_overwrite_semantics sampleOid sampleUpdateBody (by decide)
  have h1 := h.1 [] sampleVehicle [] (by intro d hd; cases hd) rfl
  have h2 := h.2 [] (by intro d hd; cases hd)
  refine ⟨by decide, ?_, h1.2.2.2.2.2.2.2.2.2 rfl, h2⟩
  have := h1.1
  simpa [show (applyVehicleSet sampleUpdateBody sampleVehicle = sampleVehicle) = False by
    simp [applyVehicleSet, sampleUpdateBody, sampleVehicle]] using this

/-- C4: `POST /vehicles` with `vehicleName` or `userEmail` missing or
empty returns the 400 validation error and leaves the collection
unchanged with no persistence call; with both present and non-empty it
stamps `createdAt` with the current time, inserts the document, and
returns success with the generated identifier. -/
theorem c4_post_vehicle_validation (now : Int) (newId : String) (body : VehicleBody)
    (store : List VehicleDoc) :
    (∀ db, ((body.vehicleName = none ∨ body.vehicleName = some (.vStr "")) ∨
            (body.userEmail = none ∨ body.userEmail = some (.vStr ""))) →
       postVehicle now newId body store db =
         ⟨.err 400 "vehicleName and userEmail are required", store, false⟩) ∧
    (∀ n e, body.vehicleName = some (.vStr n) → n ≠ "" →
       body.userEmail = some (.vStr e) → e ≠ "" →
       postVehicle now newId body store .ok =
         ⟨.ok (.inserted "Vehicle added successfully" newId),
          store ++ [{ oid := newId
                      vehicleName := body.vehicleName
                      owner := body.owner
                      category := body.category
                      pricePerDay := body.pricePerDay
                      location := body.location
                      availability := body.availability
                      description := body.description
                      coverImage := body.coverImage
                      userEmail := body.userEmail
                      createdAt := now
                      extra := body.extra }], true⟩) := by
  constructor
  · intro db h
    rcases h with h | h <;> rcases h with h | h <;>
      simp [postVehicle, truthyOpt, truthy, h]
  · intro n e hn hne he hee
    simp [postVehicle, truthyOpt, truthy, hn, he, hne, hee]

/-- Witness for `c4_post_vehicle_validation`: a body missing `userEmail`
is rejected without insertion, and a complete body is inserted with
`createdAt` stamped. -/
theorem c4_post_vehicle_witness :
    postVehicle 100 sampleOid { sampleCreateBody with userEmail := none } [] .ok =
      ⟨.err 400 "vehicleName and userEmail are required", [], false⟩ ∧
    postVehicle 100 sampleOid sampleCreateBody [] .ok =
      ⟨.ok (.inserted "Vehicle added successfully" sampleOid),
       [{ oid := sampleOid
          vehicleName := sampleCreateBody.vehicleName
          owner := sampleCreateBody.owner
          category := sampleCreateBody.category
          pricePerDay := sampleCreateBody.pricePerDay
          location := sampleCreateBody.location
          availability := sampleCreateBody.availability
          description := sampleCreateBody.description
          coverImage := sampleCreateBody.coverImage
          userEmail := sampleCreateBody.userEmail
          createdAt := 100
          extra := sampleCreateBody.extra }], true⟩ := by
  constructor
  · exact (c4_post_vehicle_validation 100 sampleOid
      { sampleCreateBody with userEmail := none } []).1 .ok (Or.inr (Or.inl rfl))
  · exact (c4_post_vehicle_validation 100 sampleOid sampleCreateBody []).2
      "Bike" "c@x.com" rfl (by decide) rfl (by decide)

/-- C5: for every identifier-taking endpoint (`GET /vehicles/:id`,
`PUT /vehicles/:id`, `DELETE /vehicles/:id`, `DELETE /bookings/:id`): a
malformed identifier yields the 400 validation error with no persistence
call and no state change; a well-formed identifier matching no stored
document yields the 404 not-found error; and `GET /vehicles/:id` with a
matching document returns the full document. -/
theorem c5_id_endpoints (id : String) (body : VehicleBody)
    (store : List VehicleDoc) (bstore : List BookingDoc) :
    (isValidObjectId id = false →
      ∀ db, getVehicleById id store db = ⟨.err 400 "Invalid vehicle id", store, false⟩ ∧
            putVehicle id body store db = ⟨.err 400 "Invalid vehicle id", store, false⟩ ∧
            deleteVehicle id store db = ⟨.err 400 "Invalid vehicle id", store, false⟩ ∧
            deleteBooking id bstore db = ⟨.err 400 "Invalid booking id", bstore, false⟩) ∧
    (isValidObjectId id = true → (∀ d ∈ store, d.oid ≠ id) → (∀ b ∈ bstore, b.oid ≠ id) →
      getVehicleById id store .ok = ⟨.err 404 "Vehicle not found", store, true⟩ ∧
      putVehicle id body store .ok = ⟨.err 404 "Vehicle not found", store, true⟩ ∧
      deleteVehicle id store .ok = ⟨.err 404 "Vehicle not found", store, true⟩ ∧
      deleteBooking id bstore .ok = ⟨.err 404 "Booking not found", bstore, true⟩) ∧
    (∀ d, isValidObjectId id = true → findVehicleById id store = some d →
      getVehicleById id store .ok = ⟨.ok (.vdoc d), store, true⟩) := by
  refine ⟨?_, ?_, ?_⟩
  · intro hinvalid db
    refine ⟨?_, ?_, ?_, ?_⟩ <;>
      simp [getVehicleById, putVehicle, deleteVehicle, deleteBooking, hinvalid]
  · intro hvalid hstore hbstore
    have hfind := findVehicleById_not_found id store hstore
    have hupd := updateVehicleById_not_found id (applyVehicleSet body) store hstore
    have hdelv := deleteVehicleById_not_found id store hstore
    have hdelb := deleteBookingById_not_found id bstore hbstore
    refine ⟨?_, ?_, ?_, ?_⟩
    · simp [getVehicleById, hvalid, hfind]
    · simp [putVehicle, hvalid, hupd]
    · simp [deleteVehicle, hvalid, hdelv]
    · simp [deleteBooking, hvalid, hdelb]
  · intro d hvalid hfind
    simp [getVehicleById, hvalid, hfind]

/-- Witness for `c5_id_endpoints`: the malformed identifier "abc" yields
400 everywhere, a valid absent identifier yields 404, and a present one
returns the stored document. -/
theorem c5_id_endpoints_witness :
    getVehicleById "abc" [sampleVehicle] .ok =
      ⟨.err 400 "Invalid vehicle id", [sampleVehicle], false⟩ ∧
    deleteBooking "abc" [] .ok = ⟨.err 400 "Invalid booking id", [], false⟩ ∧
    getVehicleById sampleOid2 [sampleVehicle] .ok =
      ⟨.err 404 "Vehicle not found", [sampleVehicle], true⟩ ∧
    getVehicleById sampleOid [sampleVehicle] .ok =
      ⟨.ok (.vdoc sampleVehicle), [sampleVehicle], true⟩ := by
  have habc := (c5_id_endpoints "abc" sampleUpdateBody [sampleVehicle] []).1 (by decide) .ok
  have h404 := ((c5_id_endpoints sampleOid2 sampleUpdateBody [sampleVehicle] []).2.1
    (by decide) (by intro d hd; simp at hd; subst hd; decide) (by intro b hb; cases hb)).1
  have hfound := (c5_id_endpoints sampleOid sampleUpdateBody [sampleVehicle] []).2.2
    sampleVehicle (by decide) (by simp [findVehicleById, sampleVehicle])
  exact ⟨habc.1, habc.2.2.2, h404, hfound⟩

/-- C6: `GET /vehicles` returns all vehicle documents and
`GET /my-vehicles?email=E` returns exactly the vehicles whose `userEmail`
equals `E`; both are ordered by `createdAt` descending (any earlier
returned document has `createdAt` at least that of any later one), and
an empty collection yields an empty listing with success status. -/
theorem c6_listings_sorted (store : List VehicleDoc) (e : String) :
    (∃ out, getVehicles store .ok = ⟨.ok (.vdocs out), store, true⟩ ∧
       out.Perm store ∧
       out.Pairwise (fun a b => a.createdAt ≥ b.createdAt)) ∧
    (e ≠ "" → ∃ out, getMyVehicles (some e) store .ok = ⟨.ok (.vdocs out), store, true⟩ ∧
       (∀ d, d ∈ out ↔ (d ∈ store ∧ d.userEmail = some (.vStr e))) ∧
       out.Pairwise (fun a b => a.createdAt ≥ b.createdAt)) ∧
    (store = [] →
       getVehicles store .ok = ⟨.ok (.vdocs []), store, true⟩ ∧
       (e ≠ "" → getMyVehicles (some e) store .ok = ⟨.ok (.vdocs []), store, true⟩)) := by
  refine ⟨?_, ?_, ?_⟩
  · refine ⟨sortVehiclesDesc store, rfl, sortVehiclesDesc_perm store, ?_⟩
    exact (sortVehiclesDesc_sorted store).imp (fun h => h)
  · intro he
    refine ⟨sortVehiclesDesc (findVehiclesByEmail e store), ?_, ?_, ?_⟩
    · simp [getMyVehicles, he]
    · intro d
      rw [(sortVehiclesDesc_perm _).mem_iff]
      simp [findVehiclesByEmail, List.mem_filter]
    · exact (sortVehiclesDesc_sorted _).imp (fun h => h)
  · intro hempty
    subst hempty
    refine ⟨?_, ?_⟩
    · simp [getVehicles, sortVehiclesDesc]
    · intro he
      simp [getMyVehicles, he, findVehiclesByEmail, sortVehiclesDesc]

/-- Witness for `c6_listings_sorted` at a concrete two-vehicle store and
the owner email `a@x.com`. -/
theorem c6_listings_sorted_witness :
    (∃ out, getVehicles [sampleVehicle] .ok = ⟨.ok (.vdocs out), [sampleVehicle], true⟩ ∧
       out.Perm [sampleVehicle] ∧
       out.Pairwise (fun a b => a.createdAt ≥ b.createdAt)) ∧
    (∃ out, getMyVehicles (some "a@x.com") [sampleVehicle] .ok =
         ⟨.ok (.vdocs out), [sampleVehicle], true⟩ ∧
       (∀ d, d ∈ out ↔ (d ∈ [sampleVehicle] ∧ d.userEmail = some (.vStr "a@x.com"))) ∧
       out.Pairwise (fun a b => a.createdAt ≥ b.createdAt)) ∧
    getVehicles ([] : List VehicleDoc) .ok = ⟨.ok (.vdocs []), [], true⟩ := by
  have h := c6_listings_sorted [sampleVehicle] "a@x.com"
  have h0 := c6_listings_sorted ([] : List VehicleDoc) "a@x.com"
  exact ⟨h.1, h.2.1 (by decide), (h0.2.2 rfl).1⟩

/-- C7 (counterexample): the claim says every stored booking has its
`startDate`/`endDate` normalized to date values, but the `src/server.js`
copy of `POST /bookings` stores them exactly as they arrived: a concrete
request with string dates is stored with a string `startDate`, which is
not a date value. -/
theorem c7_server_stores_raw_dates :
    (postBookingServer 1700000000000 sampleOid sampleBookingBody [] .ok).store.map
        (fun b => b.startDate) = [.vStr "2024-01-01"] ∧
    Value.isDate (.vStr "2024-01-01") = false := ⟨rfl, rfl⟩

/-- C7 (amended): for every `POST /bookings` request with the four
required fields present and no `status` field, both copies of the handler
store `status = "pending"` and stamp `createdAt` at insertion time; the
`src/unnamed/part_000` copy additionally normalizes `startDate`/`endDate`
to date values, while the `src/server.js` copy stores them exactly as
given. -/
theorem c7_booking_defaults (now : Int) (newId : String)
    (body : BookingBody) (store : List BookingDoc)
    (h1 : truthyOpt body.vehicleId = true) (h2 : truthyOpt body.userEmail = true)
    (h3 : truthyOpt body.startDate = true) (h4 : truthyOpt body.endDate = true)
    (hs : body.status = none) :
    (∃ d, postBookingPart now newId body store .ok =
        ⟨.ok (.booked "Booking created successfully" newId), store ++ [d], true⟩ ∧
      d.status = .vStr "pending" ∧ d.createdAt = now ∧
      d.startDate = .vDate (jsNewDate (body.startDate.getD .vNull)) ∧
      d.endDate = .vDate (jsNewDate (body.endDate.getD .vNull)) ∧
      d.startDate.isDate = true ∧ d.endDate.isDate = true) ∧
    (∃ d, postBookingServer now newId body store .ok =
        ⟨.ok (.booked "Booking created successfully" newId), store ++ [d], true⟩ ∧
      d.status = .vStr "pending" ∧ d.createdAt = now ∧
      d.startDate = body.startDate.getD .vNull ∧
      d.endDate = body.endDate.getD .vNull) := by
  constructor
  · refine ⟨{ oid := newId
              vehicleId := body.vehicleId.getD .vNull
              userEmail := body.userEmail.getD .vNull
              startDate := .vDate (jsNewDate (body.startDate.getD .vNull))
              endDate := .vDate (jsNewDate (body.endDate.getD .vNull))
              status := defaultStatus body.status
              createdAt := now
              extra := body.extra }, ?_, ?_, rfl, rfl, rfl, rfl, rfl⟩
    · simp [postBookingPart, h1, h2, h3, h4]
    · simp [defaultStatus, hs]
  · refine ⟨{ oid := newId
              vehicleId := body.vehicleId.getD .vNull
              userEmail := body.userEmail.getD .vNull
              startDate := body.startDate.getD .vNull
              endDate := body.endDate.getD .vNull
              status := defaultStatus body.status
              createdAt := now
              extra := body.extra }, ?_, ?_, rfl, rfl, rfl⟩
    · simp [postBookingServer, h1, h2, h3, h4]
    · simp [defaultStatus, hs]

/-- Witness for `c7_booking_defaults` at a concrete booking request with
ISO date strings and no status. -/
theorem c7_booking_defaults_witness :
    truthyOpt sampleBookingBody.vehicleId = true ∧
    sampleBookingBody.status = none ∧
    (∃ d, postBookingPart 1700000000000 sampleOid sampleBookingBody [] .ok =
        ⟨.ok (.booked "Booking created successfully" sampleOid), [] ++ [d], true⟩ ∧
      d.status = .vStr "pending" ∧ d.createdAt = 1700000000000 ∧
      d.startDate = .vDate (jsNewDate (sampleBookingBody.startDate.getD .vNull)) ∧
      d.endDate = .vDate (jsNewDate (sampleBookingBody.endDate.getD .vNull)) ∧
      d.startDate.isDate = true ∧ d.endDate.isDate = true) := by
  have h := c7_booking_defaults 1700000000000 sampleOid sampleBookingBody []
    rfl rfl rfl rfl rfl
  exact ⟨rfl, rfl, h.1⟩

/-! ### Error-discipline helpers (one per handler) -/

/-- The error statuses this server uses: a non-success response carries
status 400, 404 or 500. -/
def errStatusOk : Resp → Prop
  | .ok _ => True
  | .err s _ => s = 400 ∨ s = 404 ∨ s = 500

theorem getVehicles_status (store : List VehicleDoc) (db : DbOutcome) :
    errStatusOk (getVehicles store db).resp := by
  cases db <;> simp [getVehicles, errStatusOk]

theorem postVehicle_status (now : Int) (newId : String) (body : VehicleBody)
    (store : List VehicleDoc) (db : DbOutcome) :
    errStatusOk (postVehicle now newId body store db).resp := by
  unfold postVehicle
  split
  · simp [errStatusOk]
  · cases db <;> simp [errStatusOk]

theorem getVehicleById_status (id : String) (store : List VehicleDoc) (db : DbOutcome) :
    errStatusOk (getVehicleById id store db).resp := by
  unfold getVehicleById
  split
  · simp [errStatusOk]
  · cases db
    · dsimp only
      split <;> simp [errStatusOk]
    · simp [errStatusOk]

theorem getMyVehicles_status (email : Option String) (store : List VehicleDoc)
    (db : DbOutcome) : errStatusOk (getMyVehicles email store db).resp := by
  unfold getMyVehicles
  cases email
  · simp [errStatusOk]
  · dsimp only
    split
    · simp [errStatusOk]
    · cases db <;> simp [errStatusOk]

theorem putVehicle_status (id : String) (body : VehicleBody)
    (store : List VehicleDoc) (db : DbOutcome) :
    errStatusOk (putVehicle id body store db).resp := by
  unfold putVehicle
  split
  · simp [errStatusOk]
  · cases db
    · dsimp only
      split <;> simp [errStatusOk]
    · simp [errStatusOk]

theorem deleteVehicle_status (id : String) (store : List VehicleDoc) (db : DbOutcome) :
    errStatusOk (deleteVehicle id store db).resp := by
  unfold deleteVehicle
  split
  · simp [errStatusOk]
  · cases db
    · dsimp only
      split <;> simp [errStatusOk]
    · simp [errStatusOk]

theorem postBookingServer_status (now : Int) (newId : String) (body : BookingBody)
    (store : List BookingDoc) (db : DbOutcome) :
    errStatusOk (postBookingServer now newId body store db).resp := by
  unfold postBookingServer
  split
  · simp [errStatusOk]
  · cases db <;> simp [errStatusOk]

theorem postBookingPart_status (now : Int) (newId : String) (body : BookingBody)
    (store : List BookingDoc) (db : DbOutcome) :
    errStatusOk (postBookingPart now newId body store db).resp := by
  unfold postBookingPart
  split
  · simp [errStatusOk]
  · cases db <;> simp [errStatusOk]

theorem getMyBookings_status (email : Option String) (store : List BookingDoc)
    (db : DbOutcome) : errStatusOk (getMyBookings email store db).resp := by
  unfold getMyBookings
  cases email
  · simp [errStatusOk]
  · dsimp only
    split
    · simp [errStatusOk]
    · cases db <;> simp [errStatusOk]

theorem deleteBooking_status (id : String) (store : List BookingDoc) (db : DbOutcome) :
    errStatusOk (deleteBooking id store db).resp := by
  unfold deleteBooking
  split
  · simp [errStatusOk]
  · cases db
    · dsimp only
      split <;> simp [errStatusOk]
    · simp [errStatusOk]

theorem getVehicles_exn (store : List VehicleDoc) (detail : String) :
    getVehicles store (.exn detail) = getVehicles store (.exn "") := rfl

theorem postVehicle_exn (now : Int) (newId : String) (body : VehicleBody)
    (store : List VehicleDoc) (detail : String) :
    postVehicle now newId body store (.exn detail) =
      postVehicle now newId body store (.exn "") := rfl

theorem getVehicleById_exn (id : String) (store : List VehicleDoc) (detail : String) :
    getVehicleById id store (.exn detail) = getVehicleById id store (.exn "") := rfl

theorem getMyVehicles_exn (email : Option String) (store : List VehicleDoc)
    (detail : String) :
    getMyVehicles email store (.exn detail) = getMyVehicles email store (.exn "") := by
  cases email <;> rfl

theorem putVehicle_exn (id : String) (body : VehicleBody) (store : List VehicleDoc)
    (detail : String) :
    putVehicle id body store (.exn detail) = putVehicle id body store (.exn "") := rfl

theorem deleteVehicle_exn (id : String) (store : List VehicleDoc) (detail : String) :
    deleteVehicle id store (.exn detail) = deleteVehicle id store (.exn "") := rfl

theorem postBookingServer_exn (now : Int) (newId : String) (body : BookingBody)
    (store : List BookingDoc) (detail : String) :
    postBookingServer now newId body store (.exn detail) =
      postBookingServer now newId body store (.exn "") := rfl

theorem postBookingPart_exn (now : Int) (newId : String) (body : BookingBody)
    (store : List BookingDoc) (detail : String) :
    postBookingPart now newId body store (.exn detail) =
      postBookingPart now newId body store (.exn "") := rfl

theorem getMyBookings_exn (email : Option String) (store : List BookingDoc)
    (detail : String) :
    getMyBookings email store (.exn detail) = getMyBookings email store (.exn "") := by
  cases email <;> rfl

theorem deleteBooking_exn (id : String) (store : List BookingDoc) (detail : String) :
    deleteBooking id store (.exn detail) = deleteBooking id store (.exn "") := rfl

theorem getVehicles_exn_500 (store : List VehicleDoc) (detail : String) :
    (getVehicles store (.exn detail)).resp = .err 500 "Failed to fetch Vehicles" := rfl

theorem postVehicle_exn_500 (now : Int) (newId : String) (body : VehicleBody)
    (store : List VehicleDoc) (detail : String) :
    (postVehicle now newId body store (.exn detail)).dbCalled = true →
      (postVehicle now newId body store (.exn detail)).resp =
        .err 500 "Failed to add vehicle" := by
  unfold postVehicle
  split <;> intro h
  · simp at h
  · rfl

theorem getVehicleById_exn_500 (id : String) (store : List VehicleDoc) (detail : String) :
    (getVehicleById id store (.exn detail)).dbCalled = true →
      (getVehicleById id store (.exn detail)).resp =
        .err 500 "Failed to fetch vehicle" := by
  unfold getVehicleById
  split <;> intro h
  · simp at h
  · rfl

theorem getMyVehicles_exn_500 (email : Option String) (store : List VehicleDoc)
    (detail : String) :
    (getMyVehicles email store (.exn detail)).dbCalled = true →
      (getMyVehicles email store (.exn detail)).resp =
        .err 500 "Failed to fetch user vehicles" := by
  unfold getMyVehicles
  cases email
  · intro h; simp at h
  · dsimp only
    split <;> intro h
    · simp at h
    · rfl

theorem putVehicle_exn_500 (id : String) (body : VehicleBody)
    (store : List VehicleDoc) (detail : String) :
    (putVehicle id body store (.exn detail)).dbCalled = true →
      (putVehicle id body store (.exn detail)).resp =
        .err 500 "Failed to update vehicle" := by
  unfold putVehicle
  split <;> intro h
  · simp at h
  · rfl

theorem deleteVehicle_exn_500 (id : String) (store : List VehicleDoc) (detail : String) :
    (deleteVehicle id store (.exn detail)).dbCalled = true →
      (deleteVehicle id store (.exn detail)).resp =
        .err 500 "Failed to delete vehicle" := by
  unfold deleteVehicle
  split <;> intro h
  · simp at h
  · rfl

theorem postBookingServer_exn_500 (now : Int) (newId : String) (body : BookingBody)
    (store : List BookingDoc) (detail : String) :
    (postBookingServer now newId body store (.exn detail)).dbCalled = true →
      (postBookingServer now newId body store (.exn detail)).resp =
        .err 500 "Failed to create booking" := by
  unfold postBookingServer
  split <;> intro h
  · simp at h
  · rfl

theorem postBookingPart_exn_500 (now : Int) (newId : String) (body : BookingBody)
    (store : List BookingDoc) (detail : String) :
    (postBookingPart now newId body store (.exn detail)).dbCalled = true →
      (postBookingPart now newId body store (.exn detail)).resp =
        .err 500 "Failed to create booking" := by
  unfold postBookingPart
  split <;> intro h
  · simp at h
  · rfl

theorem getMyBookings_exn_500 (email : Option String) (store : List BookingDoc)
    (detail : String) :
    (getMyBookings email store (.exn detail)).dbCalled = true →
      (getMyBookings email store (.exn detail)).resp =
        .err 500 "Failed to fetch user bookings" := by
  unfold getMyBookings
  cases email
  · intro h; simp at h
  · dsimp only
    split <;> intro h
    · simp at h
    · rfl

theorem deleteBooking_exn_500 (id : String) (store : List BookingDoc) (detail : String) :
    (deleteBooking id store (.exn detail)).dbCalled = true →
      (deleteBooking id store (.exn detail)).resp =
        .err 500 "Failed to delete booking" := by
  unfold deleteBooking
  split <;> intro h
  · simp at h
  · rfl

/-- C8: for every endpoint and every request, (i) a non-success response
has the shape `{success: false, error: string}` with status 400, 404 or
500 (the shape is the `Resp.err` constructor, the statuses are proved per
handler); (ii) the response never depends on the internal detail of a
persistence-layer exception — so 500 responses surface no internal
detail; (iii) whenever a handler's persistence call was reached and the
persistence layer threw, the response is a 500 with that handler's fixed
generic message. -/
theorem c8_error_discipline (now : Int) (newId : String) (vbody : VehicleBody)
    (bbody : BookingBody) (id : String) (email : Option String)
    (store : List VehicleDoc) (bstore : List BookingDoc) (db : DbOutcome)
    (detail : String) :
    (errStatusOk (getVehicles store db).resp ∧
     errStatusOk (postVehicle now newId vbody store db).resp ∧
     errStatusOk (getVehicleById id store db).resp ∧
     errStatusOk (getMyVehicles email store db).resp ∧
     errStatusOk (putVehicle id vbody store db).resp ∧
     errStatusOk (deleteVehicle id store db).resp ∧
     errStatusOk (postBookingServer now newId bbody bstore db).resp ∧
     errStatusOk (postBookingPart now newId bbody bstore db).resp ∧
     errStatusOk (getMyBookings email bstore db).resp ∧
     errStatusOk (deleteBooking id bstore db).resp) ∧
    (getVehicles store (.exn detail) = getVehicles store (.exn "") ∧
     postVehicle now newId vbody store (.exn detail) =
       postVehicle now newId vbody store (.exn "") ∧
     getVehicleById id store (.exn detail) = getVehicleById id store (.exn "") ∧
     getMyVehicles email store (.exn detail) = getMyVehicles email store (.exn "") ∧
     putVehicle id vbody store (.exn detail) = putVehicle id vbody store (.exn "") ∧
     deleteVehicle id store (.exn detail) = deleteVehicle id store (.exn "") ∧
     postBookingServer now newId bbody bstore (.exn detail) =
       postBookingServer now newId bbody bstore (.exn "") ∧
     postBookingPart now newId bbody bstore (.exn detail) =
       postBookingPart now newId bbody bstore (.exn "") ∧
     getMyBookings email bstore (.exn detail) = getMyBookings email bstore (.exn "") ∧
     deleteBooking id bstore (.exn detail) = deleteBooking id bstore (.exn "")) ∧
    ((getVehicles store (.exn detail)).resp = .err 500 "Failed to fetch Vehicles" ∧
     ((postVehicle now newId vbody store (.exn detail)).dbCalled = true →
       (postVehicle now newId vbody store (.exn detail)).resp =
         .err 500 "Failed to add vehicle") ∧
     ((getVehicleById id store (.exn detail)).dbCalled = true →
       (getVehicleById id store (.exn detail)).resp =
         .err 500 "Failed to fetch vehicle") ∧
     ((getMyVehicles email store (.exn detail)).dbCalled = true →
       (getMyVehicles email store (.exn detail)).resp =
         .err 500 "Failed to fetch user vehicles") ∧
     ((putVehicle id vbody store (.exn detail)).dbCalled = true →
       (putVehicle id vbody store (.exn detail)).resp =
         .err 500 "Failed to update vehicle") ∧
     ((deleteVehicle id store (.exn detail)).dbCalled = true →
       (deleteVehicle id store (.exn detail)).resp =
         .err 500 "Failed to delete vehicle") ∧
     ((postBookingServer now newId bbody bstore (.exn detail)).dbCalled = true →
       (postBookingServer now newId bbody bstore (.exn detail)).resp =
         .err 500 "Failed to create booking") ∧
     ((postBookingPart now newId bbody bstore (.exn detail)).dbCalled = true →
       (postBookingPart now newId bbody bstore (.exn detail)).resp =
         .err 500 "Failed to create booking") ∧
     ((getMyBookings email bstore (.exn detail)).dbCalled = true →
       (getMyBookings email bstore (.exn detail)).resp =
         .err 500 "Failed to fetch user bookings") ∧
     ((deleteBooking id bstore (.exn detail)).dbCalled = true →
       (deleteBooking id bstore (.exn detail)).resp =
         .err 500 "Failed to delete booking")) :=
  ⟨⟨getVehicles_status store db,
    postVehicle_status now newId vbody store db,
    getVehicleById_status id store db,
    getMyVehicles_status email store db,
    putVehicle_status id vbody store db,
    deleteVehicle_status id store db,
    postBookingServer_status now newId bbody bstore db,
    postBookingPart_status now newId bbody bstore db,
    getMyBookings_status email bstore db,
    deleteBooking_status id bstore db⟩,
   ⟨getVehicles_exn store detail,
    postVehicle_exn now newId vbody store detail,
    getVehicleById_exn id store detail,
    getMyVehicles_exn email store detail,
    putVehicle_exn id vbody store detail,
    deleteVehicle_exn id store detail,
    postBookingServer_exn now newId bbody bstore detail,
    postBookingPart_exn now newId bbody bstore detail,
    getMyBookings_exn email bstore detail,
    deleteBooking_exn id bstore detail⟩,
   ⟨getVehicles_exn_500 store detail,
    postVehicle_exn_500 now newId vbody store detail,
    getVehicleById_exn_500 id store detail,
    getMyVehicles_exn_500 email store detail,
    putVehicle_exn_500 id vbody store detail,
    deleteVehicle_exn_500 id store detail,
    postBookingServer_exn_500 now newId bbody bstore detail,
    postBookingPart_exn_500 now newId bbody bstore detail,
    getMyBookings_exn_500 email bstore detail,
    deleteBooking_exn_500 id bstore detail⟩⟩

/-- Witness for `c8_error_discipline` at concrete requests and a concrete
exception detail. -/
theorem c8_error_discipline_witness :
    errStatusOk (postVehicle 0 sampleOid sampleCreateBody [] .ok).resp ∧
    postVehicle 0 sampleOid sampleCreateBody [] (.exn "connection lost") =
      postVehicle 0 sampleOid sampleCreateBody [] (.exn "") ∧
    (postVehicle 0 sampleOid sampleCreateBody [] (.exn "connection lost")).resp =
      .err 500 "Failed to add vehicle" := by
  have h := c8_error_discipline 0 sampleOid sampleCreateBody sampleBookingBody
    "abc" none [] [] .ok "connection lost"
  exact ⟨h.1.2.1, h.2.1.2.1, h.2.2.2.1 rfl⟩

/-- C9: booking creation makes no existence check on `vehicleId` (the
handler never consults the vehicles collection) and no overlap check
against other bookings: for any two requests passing field validation
with the same `vehicleId` and identical (fully overlapping) date ranges,
run one after the other, both succeed and both booking documents coexist
in the store — in both copies of the handler. -/
theorem c9_overlapping_bookings (now1 now2 : Int) (id1 id2 : String)
    (b1 b2 : BookingBody) (store : List BookingDoc)
    (h11 : truthyOpt b1.vehicleId = true) (h12 : truthyOpt b1.userEmail = true)
    (h13 : truthyOpt b1.startDate = true) (h14 : truthyOpt b1.endDate = true)
    (h21 : truthyOpt b2.vehicleId = true) (h22 : truthyOpt b2.userEmail = true)
    (h23 : truthyOpt b2.startDate = true) (h24 : truthyOpt b2.endDate = true)
    (hveh : b1.vehicleId = b2.vehicleId)
    (hstart : b1.startDate = b2.startDate) (hend : b1.endDate = b2.endDate) :
    (∃ d1 d2,
      postBookingPart now1 id1 b1 store .ok =
        ⟨.ok (.booked "Booking created successfully" id1), store ++ [d1], true⟩ ∧
      postBookingPart now2 id2 b2 (store ++ [d1]) .ok =
        ⟨.ok (.booked "Booking created successfully" id2), store ++ [d1, d2], true⟩ ∧
      d1.vehicleId = d2.vehicleId ∧ d1.startDate = d2.startDate ∧ d1.endDate = d2.endDate) ∧
    (∃ d1 d2,
      postBookingServer now1 id1 b1 store .ok =
        ⟨.ok (.booked "Booking created successfully" id1), store ++ [d1], true⟩ ∧
      postBookingServer now2 id2 b2 (store ++ [d1]) .ok =
        ⟨.ok (.booked "Booking created successfully" id2), store ++ [d1, d2], true⟩ ∧
      d1.vehicleId = d2.vehicleId ∧ d1.startDate = d2.startDate ∧ d1.endDate = d2.endDate) := by
  constructor
  · refine ⟨{ oid := id1
              vehicleId := b1.vehicleId.getD .vNull
              userEmail := b1.userEmail.getD .vNull
              startDate := .vDate (jsNewDate (b1.startDate.getD .vNull))
              endDate := .vDate (jsNewDate (b1.endDate.getD .vNull))
              status := defaultStatus b1.status
              createdAt := now1
              extra := b1.extra },
            { oid := id2
              vehicleId := b2.vehicleId.getD .vNull
              userEmail := b2.userEmail.getD .vNull
              startDate := .vDate (jsNewDate (b2.startDate.getD .vNull))
              endDate := .vDate (jsNewDate (b2.endDate.getD .vNull))
              status := defaultStatus b2.status
              createdAt := now2
              extra := b2.extra }, ?_, ?_, ?_, ?_, ?_⟩
    · simp [postBookingPart, h11, h12, h13, h14]
    · simp [postBookingPart, h21, h22, h23, h24]
    · simp [hveh]
    · simp [hstart]
    · simp [hend]
  · refine ⟨{ oid := id1
              vehicleId := b1.vehicleId.getD .vNull
              userEmail := b1.userEmail.getD .vNull
              startDate := b1.startDate.getD .vNull
              endDate := b1.endDate.getD .vNull
              status := defaultStatus b1.status
              createdAt := now1
              extra := b1.extra },
            { oid := id2
              vehicleId := b2.vehicleId.getD .vNull
              userEmail := b2.userEmail.getD .vNull
              startDate := b2.startDate.getD .vNull
              endDate := b2.endDate.getD .vNull
              status := defaultStatus b2.status
              createdAt := now2
              extra := b2.extra }, ?_, ?_, ?_, ?_, ?_⟩
    · simp [postBookingServer, h11, h12, h13, h14]
    · simp [postBookingServer, h21, h22, h23, h24]
    · simp [hveh]
    · simp [hstart]
    · simp [hend]

/-- Witness for `c9_overlapping_bookings`: two concrete bookings with the
same vehicle and identical date ranges are both created. -/
theorem c9_overlapping_bookings_witness :
    truthyOpt sampleBookingBody.vehicleId = true ∧
    (∃ d1 d2,
      postBookingPart 10 sampleOid sampleBookingBody [] .ok =
        ⟨.ok (.booked "Booking created successfully" sampleOid), [] ++ [d1], true⟩ ∧
      postBookingPart 20 sampleOid2 sampleBookingBody ([] ++ [d1]) .ok =
        ⟨.ok (.booked "Booking created successfully" sampleOid2), [] ++ [d1, d2], true⟩ ∧
      d1.vehicleId = d2.vehicleId ∧ d1.startDate = d2.startDate ∧ d1.endDate = d2.endDate) := by
  have h := c9_overlapping_bookings 10 20 sampleOid sampleOid2
    sampleBookingBody sampleBookingBody []
    rfl rfl rfl rfl rfl rfl rfl rfl rfl rfl rfl
  exact ⟨rfl, h.1⟩

/-- C10 (counterexample): with the same timestamp, generated identifier
and request, the `src/server.js` copy of `POST /bookings` stores
`startDate` as the raw string while the `src/unnamed/part_000` copy
stores a date value, so the two copies do not store the same booking
document. -/
theorem c10_date_representation_differs :
    (postBookingServer 1700000000000 sampleOid sampleBookingBody [] .ok).store.map
        (fun b => b.startDate) = [.vStr "2024-01-01"] ∧
    (postBookingPart 1700000000000 sampleOid sampleBookingBody [] .ok).store.map
        (fun b => b.startDate) = [.vDate (.valid 1704067200000)] ∧
    (postBookingServer 1700000000000 sampleOid sampleBookingBody [] .ok).store ≠
      (postBookingPart 1700000000000 sampleOid sampleBookingBody [] .ok).store := by
  refine ⟨rfl, rfl, fun h => ?_⟩
  have hmap := congrArg (List.map (fun b : BookingDoc => b.startDate)) h
  rw [show (postBookingServer 1700000000000 sampleOid sampleBookingBody [] .ok).store.map
        (fun b => b.startDate) = [.vStr "2024-01-01"] from rfl,
      show (postBookingPart 1700000000000 sampleOid sampleBookingBody [] .ok).store.map
        (fun b => b.startDate) = [.vDate (.valid 1704067200000)] from rfl] at hmap
  exact absurd hmap (by decide)

/-- C10 (amended): the two copies of `POST /bookings` agree on
validation, on the response and on whether a persistence call is made for
every request, and the stored collections agree except that the document
inserted by the `src/unnamed/part_000` copy carries
`new Date(startDate)` / `new Date(endDate)` where the `src/server.js`
copy keeps the request values as given. -/
theorem c10_equiv_up_to_dates (now : Int) (newId : String)
    (body : BookingBody) (store : List BookingDoc) (db : DbOutcome) :
    (postBookingServer now newId body store db).resp =
      (postBookingPart now newId body store db).resp ∧
    (postBookingServer now newId body store db).dbCalled =
      (postBookingPart now newId body store db).dbCalled ∧
    (postBookingPart now newId body store db).store =
      store ++ ((postBookingServer now newId body store db).store.drop store.length).map
        (fun d => { d with startDate := .vDate (jsNewDate d.startDate)
                           endDate := .vDate (jsNewDate d.endDate) }) := by
  unfold postBookingServer postBookingPart
  split
  · simp
  · cases db
    · refine ⟨rfl, rfl, ?_⟩
      simp [List.drop_left]
    · simp

end TravelEase
